import Mathlib

/-!
Shallow embedding of the `mozjs` build driver (`build.rs`) and the
structured-clone buffer wrapper (`js/rust/src/sc.rs`), with theorems
settling the specification claims about them.
-/

namespace Mozjs

/-! ## Embedding of `build.rs` -/

/-- Does `needle` match the front of `haystack`? -/
def firstMatches : List Char → List Char → Bool
  | [], _ => true
  | _ :: _, [] => false
  | c :: cs, d :: ds => c == d && firstMatches cs ds

/-- Does `needle` occur contiguously anywhere in `haystack`? -/
def occursIn : List Char → List Char → Bool
  | needle, [] => needle.isEmpty
  | needle, d :: ds => firstMatches needle (d :: ds) || occursIn needle ds

/-- Rust `str::contains`: substring containment. -/
def strContains (haystack needle : String) : Bool :=
  occursIn needle.toList haystack.toList

/-- `cc_flags()` from `build.rs`. The two `cfg!` conditions — the
`debugmozjs` cargo feature and compiling for Windows — are compile-time
booleans, passed here as parameters. -/
def cc_flags (debugmozjs windows : Bool) : List String :=
  ["-DRUST_BINDGEN"]
    ++ (if debugmozjs then
          ["-DJS_GC_ZEAL", "-DDEBUG", "-DJS_DEBUG"]
        else [])
    ++ (if windows then
          ["-std=c++14"]
        else
          ["-std=gnu++11", "-fno-sized-deallocation",
           "-Wno-unused-parameter", "-Wno-invalid-offsetof"])

/-- `find_make()` from `build.rs`: the `MAKE` environment override wins;
otherwise "gmake" is used when spawning it succeeds (`Command::new("gmake").status()`
returns `Ok`), falling back to "make". -/
def find_make (makeOverride : Option String) (gmakeSpawns : Bool) : String :=
  match makeOverride with
  | some make => make
  | none => if gmakeSpawns then "gmake" else "make"

/-- The build-tool name `build_jsapi` ends up invoking: it starts from
`find_make()` and, when `MOZTOOLS_PATH` is set, is reassigned to "mozmake". -/
def resolvedMakeTool (makeOverride : Option String) (gmakeSpawns : Bool)
    (moztoolsPath : Option String) : String :=
  let make := find_make makeOverride gmakeSpawns
  match moztoolsPath with
  | some _ => "mozmake"
  | none => make

/-- A `cargo:` directive printed by `build_jsapi`. -/
inductive Directive where
  | linkSearchNative (path : String)
  | linkLibStatic (lib : String)
  | linkLib (lib : String)
  | outdir (dir : String)
deriving DecidableEq, Repr

/-- The `println!("cargo:...")` sequence emitted by `build_jsapi` after a
successful native build, in source order. -/
def link_directives (target out_dir : String) : List Directive :=
  [Directive.linkSearchNative (out_dir ++ "/js/src"),
   Directive.linkLibStatic "js_static"]
    ++ (if strContains target "windows" then
          [Directive.linkLib "winmm", Directive.linkLib "psapi"]
            ++ (if strContains target "gnu" then [Directive.linkLib "stdc++"] else [])
        else if strContains target "apple" || strContains target "freebsd" then
          [Directive.linkLib "c++"]
        else
          [Directive.linkLib "stdc++"])
    ++ [Directive.outdir out_dir]

/-- Outcome of spawning the native build tool:
`spawnFailed` models `Command::status()` returning `Err`,
`exited code` models a run that finished with the given exit code. -/
inductive SpawnOutcome where
  | spawnFailed
  | exited (code : Nat)
deriving DecidableEq, Repr

/-- `build_jsapi` from `build.rs`. `.expect("Failed to run make")` on a spawn
failure and `assert!(result.success())` on a non-zero exit are both panics,
modelled as `Except.error`; the `cargo:` directives are printed only after
the assertion, so a failed build emits none. -/
def build_jsapi (target out_dir : String) (makeOutcome : SpawnOutcome) :
    Except String (List Directive) :=
  match makeOutcome with
  | SpawnOutcome.spawnFailed => Except.error "Failed to run make"
  | SpawnOutcome.exited code =>
      if code = 0 then Except.ok (link_directives target out_dir)
      else Except.error "assertion failed: result.success()"

/-- The flag list `build_jsglue` hands to the C++ compiler: the loop
`for flag in cc_flags() { build.flag_if_supported(flag); }` pushes every
flag of `cc_flags()` into the `cc::Build`, starting from none. -/
def build_jsglue_flags (debugmozjs windows : Bool) : List String :=
  (cc_flags debugmozjs windows).foldl (fun build flag => build ++ [flag]) []

/-- The clang argument list `build_jsapi_bindings` hands to bindgen's
embedded parser: the include/`-x c++` arguments, then `-fms-compatibility`
on Windows only, then every flag of `cc_flags()` in order. -/
def build_jsapi_bindings_clang_args (debugmozjs windows : Bool) (out_dir : String) :
    List String :=
  let base := ["-I", out_dir ++ "/dist/include", "-x", "c++"]
  let base := if windows then base ++ ["-fms-compatibility"] else base
  (cc_flags debugmozjs windows).foldl (fun args flag => args ++ [flag]) base

/-- `a` is emitted before any occurrence of `b` in `l`: the list splits so
that `a` has already appeared while `b` has not. -/
def emittedBefore (a b : Directive) (l : List Directive) : Prop :=
  ∃ l₁ l₂, l = l₁ ++ l₂ ∧ a ∈ l₁ ∧ b ∉ l₁

/-! ## Embedding of `js/rust/src/sc.rs` -/

/-- `JS::StructuredCloneScope` from jsapi. -/
inductive StructuredCloneScope where
  | SameProcessSameThread
  | SameProcessDifferentThread
  | DifferentProcess
deriving DecidableEq, Repr

/-- `JSStructuredCloneCallbacks` from jsapi; `sc.rs` only passes the
callback table through to the native calls, so it is left abstract. -/
structure JSStructuredCloneCallbacks where
  id : Nat
deriving DecidableEq, Repr

/-- The native side of the world that `sc.rs` manipulates through raw
pointers: the live `JSAutoStructuredCloneBuffer` allocations (address ↦
clone-data bytes), a fresh-address counter, and the log of
`DeleteJSAutoStructuredCloneBuffer` calls. Address `0` is the null pointer. -/
structure NativeHeap where
  nextPtr : Nat
  bufs : List (Nat × List Nat)
  deletes : List Nat
deriving DecidableEq, Repr

/-- Modelled from the spec: `glue::NewJSAutoStructuredCloneBuffer` allocates
a native buffer with empty clone data and returns its (non-null) address, or
the null pointer when the underlying allocation fails; `allocFails` stands
for that environmental failure. -/
def NewJSAutoStructuredCloneBuffer (allocFails : Bool)
    (scope : StructuredCloneScope) (callbacks : JSStructuredCloneCallbacks)
    (h : NativeHeap) : Nat × NativeHeap :=
  if allocFails then (0, h)
  else
    (h.nextPtr + 1,
     { h with nextPtr := h.nextPtr + 1, bufs := (h.nextPtr + 1, []) :: h.bufs })

/-- Modelled from the spec: `glue::DeleteJSAutoStructuredCloneBuffer` frees
the native buffer at `ptr`; the call is recorded in the delete log. -/
def DeleteJSAutoStructuredCloneBuffer (ptr : Nat) (h : NativeHeap) : NativeHeap :=
  { h with bufs := h.bufs.filter (fun e => decide (e.1 ≠ ptr)),
           deletes := h.deletes ++ [ptr] }

/-- The clone-data bytes reachable through a data handle. -/
def lookupData (h : NativeHeap) (dataPtr : Nat) : List Nat :=
  match h.bufs.find? (fun e => e.1 == dataPtr) with
  | some e => e.2
  | none => []

/-- Modelled from the spec: `glue::GetLengthOfJSStructuredCloneData` — the
length query against a data handle. -/
def GetLengthOfJSStructuredCloneData (h : NativeHeap) (dataPtr : Nat) : Nat :=
  (lookupData h dataPtr).length

/-- Modelled from the spec: `glue::WriteBytesToJSStructuredCloneData`
appends the given bytes to the clone data behind the handle and reports
success. -/
def WriteBytesToJSStructuredCloneData (src : List Nat) (dataPtr : Nat)
    (h : NativeHeap) : Bool × NativeHeap :=
  (true,
   { h with bufs := h.bufs.map (fun e => if e.1 = dataPtr then (e.1, e.2 ++ src) else e) })

/-- A Rust `Vec<u8>`: its logical length, its capacity, and the contents of
its heap allocation. `Vec::with_capacity(n)` leaves the length at `0`. -/
structure RustVec where
  len : Nat
  cap : Nat
  backing : List Nat
deriving DecidableEq, Repr

/-- `Vec::with_capacity(n)`: `n` uninitialised slots (modelled as zeros),
logical length `0`. -/
def vecWithCapacity (n : Nat) : RustVec :=
  { len := 0, cap := n, backing := List.replicate n 0 }

/-- The observable elements of a `Vec`: the first `len` slots of the
allocation — what iteration, indexing and `Deref` expose. -/
def RustVec.bytes (v : RustVec) : List Nat :=
  v.backing.take v.len

/-- Modelled from the spec: `glue::CopyJSStructuredCloneData` copies the
clone data's bytes into the destination memory (`vec.as_mut_ptr()`). It is
a raw-memory write: it does not change the `Vec`'s logical length. -/
def CopyJSStructuredCloneData (h : NativeHeap) (dataPtr : Nat) (v : RustVec) : RustVec :=
  let d := lookupData h dataPtr
  { v with backing := d ++ v.backing.drop d.length }

/-- The Rust wrapper: an owned raw pointer to a native
`JSAutoStructuredCloneBuffer`. -/
structure StructuredCloneBuffer where
  raw : Nat
deriving DecidableEq, Repr

/-- `StructuredCloneBuffer::new`: calls the native allocator, then
`assert!(!raw.is_null())` — a panic (`Except.error`) when the allocation
came back null — and otherwise wraps the pointer. -/
def StructuredCloneBuffer.new (scope : StructuredCloneScope)
    (callbacks : JSStructuredCloneCallbacks) (allocFails : Bool)
    (h : NativeHeap) : Except String (StructuredCloneBuffer × NativeHeap) :=
  let (raw, h') := NewJSAutoStructuredCloneBuffer allocFails scope callbacks h
  if raw = 0 then Except.error "assertion failed: !raw.is_null()"
  else Except.ok ({ raw := raw }, h')

/-- `StructuredCloneBuffer::data`: the handle to `(*self.raw).data_`. -/
def StructuredCloneBuffer.data (b : StructuredCloneBuffer) : Nat :=
  b.raw

/-- `StructuredCloneBuffer::copy_to_vec`, line by line: query the length,
`Vec::with_capacity(len)`, copy the clone data into the vector's memory,
return the vector. (Note: the source never calls `set_len`.) -/
def StructuredCloneBuffer.copy_to_vec (b : StructuredCloneBuffer)
    (h : NativeHeap) : RustVec :=
  let len := GetLengthOfJSStructuredCloneData h b.data
  let vec := vecWithCapacity len
  let vec := CopyJSStructuredCloneData h b.data vec
  vec

/-- Modelled from the spec: the native
`JSAutoStructuredCloneBuffer::read` deserializes the buffer's clone data
into a JS value (values are abstracted as `Nat`); `nativeOk` stands for
whether the underlying JSAPI call succeeds. It frees nothing. -/
def nativeRead (nativeOk : Bool) (ptr : Nat) (h : NativeHeap) :
    Bool × Nat × NativeHeap :=
  (nativeOk, (lookupData h ptr).headD 0, h)

/-- Modelled from the spec: serialization of a JS value into clone-data
bytes by the native `write`. -/
def serializeValue (v : Nat) : List Nat :=
  [v]

/-- Modelled from the spec: the native `JSAutoStructuredCloneBuffer::write`
serializes a value into the buffer's clone data; `nativeOk` stands for
whether the underlying JSAPI call succeeds. It frees nothing. -/
def nativeWrite (nativeOk : Bool) (v : Nat) (ptr : Nat) (h : NativeHeap) :
    Bool × NativeHeap :=
  if nativeOk then
    (true,
     { h with bufs := h.bufs.map (fun e => if e.1 = ptr then (e.1, serializeValue v) else e) })
  else (false, h)

/-- `StructuredCloneBuffer::read`. The method body only dereferences
`self.raw`; it never assigns the field, so the wrapper comes back
unchanged. -/
def StructuredCloneBuffer.read (b : StructuredCloneBuffer)
    (callbacks : JSStructuredCloneCallbacks) (nativeOk : Bool)
    (h : NativeHeap) : Bool × Nat × StructuredCloneBuffer × NativeHeap :=
  let (ok, v, h') := nativeRead nativeOk b.raw h
  (ok, v, b, h')

/-- `StructuredCloneBuffer::write`. The method body only dereferences
`self.raw`; it never assigns the field. -/
def StructuredCloneBuffer.write (b : StructuredCloneBuffer) (v : Nat)
    (callbacks : JSStructuredCloneCallbacks) (nativeOk : Bool)
    (h : NativeHeap) : Bool × StructuredCloneBuffer × NativeHeap :=
  let (ok, h') := nativeWrite nativeOk v b.raw h
  (ok, b, h')

/-- `StructuredCloneBuffer::write_bytes`: forwards the slice to
`glue::WriteBytesToJSStructuredCloneData` against `self.data()`. -/
def StructuredCloneBuffer.write_bytes (b : StructuredCloneBuffer)
    (bytes : List Nat) (h : NativeHeap) :
    Bool × StructuredCloneBuffer × NativeHeap :=
  let (ok, h') := WriteBytesToJSStructuredCloneData bytes b.data h
  (ok, b, h')

/-- `impl Drop for StructuredCloneBuffer`: the one call to
`glue::DeleteJSAutoStructuredCloneBuffer` in the wrapper. -/
def StructuredCloneBuffer.drop (b : StructuredCloneBuffer)
    (h : NativeHeap) : NativeHeap :=
  DeleteJSAutoStructuredCloneBuffer b.raw h

/-- One wrapper operation that may run between construction and drop. -/
inductive SCOp where
  | getData
  | copyToVec
  | read (nativeOk : Bool)
  | write (v : Nat) (nativeOk : Bool)
  | writeBytes (bytes : List Nat)
deriving DecidableEq, Repr

/-- Run one wrapper operation, with a fixed callback table. -/
def applyOp (op : SCOp) (b : StructuredCloneBuffer) (h : NativeHeap) :
    StructuredCloneBuffer × NativeHeap :=
  match op with
  | SCOp.getData =>
      let _ := b.data
      (b, h)
  | SCOp.copyToVec =>
      let _ := b.copy_to_vec h
      (b, h)
  | SCOp.read nativeOk =>
      let (_, _, b', h') := b.read { id := 0 } nativeOk h
      (b', h')
  | SCOp.write v nativeOk =>
      let (_, b', h') := b.write v { id := 0 } nativeOk h
      (b', h')
  | SCOp.writeBytes bytes =>
      let (_, b', h') := b.write_bytes bytes h
      (b', h')

/-- Run a sequence of wrapper operations. -/
def runOps (ops : List SCOp) (b : StructuredCloneBuffer) (h : NativeHeap) :
    StructuredCloneBuffer × NativeHeap :=
  match ops with
  | [] => (b, h)
  | op :: rest => runOps rest (applyOp op b h).1 (applyOp op b h).2

/-! ## Helper lemmas -/

theorem foldl_push_eq_append (l acc : List String) :
    l.foldl (fun a x => a ++ [x]) acc = acc ++ l := by
  induction l generalizing acc with
  | nil => simp
  | cons x xs ih => simp [List.foldl, ih]

theorem link_directives_eq (target out_dir : String) :
    link_directives target out_dir =
      [Directive.linkSearchNative (out_dir ++ "/js/src"),
       Directive.linkLibStatic "js_static"] ++
      ((if strContains target "windows" then
          [Directive.linkLib "winmm", Directive.linkLib "psapi"]
            ++ (if strContains target "gnu" then [Directive.linkLib "stdc++"] else [])
        else if strContains target "apple" || strContains target "freebsd" then
          [Directive.linkLib "c++"]
        else
          [Directive.linkLib "stdc++"])
        ++ [Directive.outdir out_dir]) := by
  simp [link_directives]

/-! ## Claims about `build.rs` -/

/-- C6: `cc_flags` always contains the bindings-generation marker define
`-DRUST_BINDGEN`; when the `debugmozjs` feature is on it also contains the
GC stress-testing and debug-assertion defines; on non-Windows platforms it
also disables sized deallocation and suppresses the unused-parameter and
invalid-offsetof warning classes. -/
theorem cc_flags_required_flags (debugmozjs windows : Bool) :
    "-DRUST_BINDGEN" ∈ cc_flags debugmozjs windows ∧
    (debugmozjs = true →
      "-DJS_GC_ZEAL" ∈ cc_flags debugmozjs windows ∧
      "-DDEBUG" ∈ cc_flags debugmozjs windows ∧
      "-DJS_DEBUG" ∈ cc_flags debugmozjs windows) ∧
    (windows = false →
      "-fno-sized-deallocation" ∈ cc_flags debugmozjs windows ∧
      "-Wno-unused-parameter" ∈ cc_flags debugmozjs windows ∧
      "-Wno-invalid-offsetof" ∈ cc_flags debugmozjs windows) := by
  cases debugmozjs <;> cases windows <;> decide

/-- C6 witness: the debug, non-Windows instance. -/
theorem cc_flags_required_flags_case :
    "-DJS_GC_ZEAL" ∈ cc_flags true false ∧
    "-fno-sized-deallocation" ∈ cc_flags true false :=
  ⟨((cc_flags_required_flags true false).2.1 rfl).1,
   ((cc_flags_required_flags true false).2.2 rfl).1⟩

/-- C9: the build tool is the `MAKE` override when set, else "gmake" when
spawnable with a fallback to "make"; a set `MOZTOOLS_PATH` switches the
tool to "mozmake", overriding the preceding resolution. -/
theorem resolvedMakeTool_resolution (makeOverride : Option String)
    (gmakeSpawns : Bool) (moztoolsPath : Option String) :
    (∀ p, moztoolsPath = some p →
      resolvedMakeTool makeOverride gmakeSpawns moztoolsPath = "mozmake") ∧
    (moztoolsPath = none →
      (∀ m, makeOverride = some m →
        resolvedMakeTool makeOverride gmakeSpawns moztoolsPath = m) ∧
      (makeOverride = none →
        resolvedMakeTool makeOverride gmakeSpawns moztoolsPath =
          if gmakeSpawns then "gmake" else "make")) := by
  cases moztoolsPath <;> cases makeOverride <;> cases gmakeSpawns <;>
    simp [resolvedMakeTool, find_make]

/-- C9 witness: `MOZTOOLS_PATH` overrides even a set `MAKE`. -/
theorem resolvedMakeTool_resolution_case :
    resolvedMakeTool (some "custom-make") false (some "/opt/moztools") = "mozmake" :=
  (resolvedMakeTool_resolution (some "custom-make") false
    (some "/opt/moztools")).1 "/opt/moztools" rfl

/-- C7: a spawn failure of the build tool is fatal with a diagnostic, a
non-zero exit is fatal (the asserted success check), and a failed build
never reaches the directive-emitting `Except.ok` result. -/
theorem build_jsapi_failure_semantics (target out_dir : String) :
    build_jsapi target out_dir SpawnOutcome.spawnFailed =
      Except.error "Failed to run make" ∧
    (∀ code, code ≠ 0 →
      build_jsapi target out_dir (SpawnOutcome.exited code) =
        Except.error "assertion failed: result.success()") ∧
    (∀ outcome dirs msg, build_jsapi target out_dir outcome = Except.error msg →
      build_jsapi target out_dir outcome ≠ Except.ok dirs) := by
  refine ⟨rfl, ?_, ?_⟩
  · intro code hc
    simp [build_jsapi, hc]
  · intro outcome dirs msg herr hok
    rw [herr] at hok
    exact Except.noConfusion hok

/-- C7 witness: exit code 2 is fatal. -/
theorem build_jsapi_failure_semantics_case :
    build_jsapi "x86_64-unknown-linux-gnu" "out" (SpawnOutcome.exited 2) =
      Except.error "assertion failed: result.success()" :=
  (build_jsapi_failure_semantics "x86_64-unknown-linux-gnu" "out").2.1 2
    (by decide)

/-- C8: on success the search-path directive for `<out>/js/src` is emitted,
and the static-link directive for `js_static` is emitted before any C++
standard-library link directive (`stdc++` or `c++`). -/
theorem link_directives_static_before_cpp (target out_dir : String) :
    Directive.linkSearchNative (out_dir ++ "/js/src") ∈
      link_directives target out_dir ∧
    ∀ lib, lib = "stdc++" ∨ lib = "c++" →
      emittedBefore (Directive.linkLibStatic "js_static") (Directive.linkLib lib)
        (link_directives target out_dir) := by
  constructor
  · rw [link_directives_eq]
    exact List.mem_append_left _ (List.mem_cons_self _ _)
  · intro lib _
    refine ⟨_, _, link_directives_eq target out_dir, ?_, ?_⟩
    · simp
    · simp

/-- C8 witness: on a Linux target, `js_static` precedes `stdc++`. -/
theorem link_directives_static_before_cpp_case :
    emittedBefore (Directive.linkLibStatic "js_static")
      (Directive.linkLib "stdc++")
      (link_directives "x86_64-unknown-linux-gnu" "out") :=
  (link_directives_static_before_cpp "x86_64-unknown-linux-gnu" "out").2
    "stdc++" (Or.inl rfl)

/-- C5: every flag produced by `cc_flags` reaches both the glue compiler's
flag list and the binding generator's clang argument list. -/
theorem cc_flags_passed_to_both (debugmozjs windows : Bool) (out_dir : String)
    (flag : String) (hmem : flag ∈ cc_flags debugmozjs windows) :
    flag ∈ build_jsglue_flags debugmozjs windows ∧
    flag ∈ build_jsapi_bindings_clang_args debugmozjs windows out_dir := by
  constructor
  · rw [build_jsglue_flags, foldl_push_eq_append]
    simpa using hmem
  · rw [build_jsapi_bindings_clang_args, foldl_push_eq_append]
    exact List.mem_append_right _ hmem

/-- C5 witness: the marker define reaches both consumers. -/
theorem cc_flags_passed_to_both_case :
    "-DRUST_BINDGEN" ∈ build_jsglue_flags false false ∧
    "-DRUST_BINDGEN" ∈ build_jsapi_bindings_clang_args false false "out" :=
  cc_flags_passed_to_both false false "out" "-DRUST_BINDGEN" (by decide)

/-- The C2 sentence as stated by the spec, at one target and output
directory: Windows targets get winmm and psapi (and only they do), the
llvm-style runtime appears exactly on apple/freebsd targets, and every
other target gets the GNU-style runtime `stdc++`. -/
def specClaimC2 (target out_dir : String) : Prop :=
  (strContains target "windows" = true →
    Directive.linkLib "winmm" ∈ link_directives target out_dir ∧
    Directive.linkLib "psapi" ∈ link_directives target out_dir) ∧
  (strContains target "windows" = false →
    Directive.linkLib "winmm" ∉ link_directives target out_dir ∧
    Directive.linkLib "psapi" ∉ link_directives target out_dir) ∧
  ((strContains target "apple" = true ∨ strContains target "freebsd" = true) →
    Directive.linkLib "c++" ∈ link_directives target out_dir) ∧
  (strContains target "apple" = false → strContains target "freebsd" = false →
    Directive.linkLib "stdc++" ∈ link_directives target out_dir)

/-- C2 counterexample: on `x86_64-pc-windows-msvc` — neither apple nor
freebsd — the code emits no C++ runtime directive at all, while the claim
demands `stdc++` on every non-apple/freebsd target. -/
theorem specClaimC2_counterexample :
    ¬ specClaimC2 "x86_64-pc-windows-msvc" "out" := by
  unfold specClaimC2
  decide

/-- C2 (amended): Windows targets get winmm and psapi, and `stdc++` exactly
when the triple contains "gnu" (an msvc-style Windows target gets no C++
runtime directive); non-Windows targets omit winmm and psapi and get `c++`
on apple/freebsd targets and `stdc++` on every other target. -/
theorem link_directives_platform_selection (target out_dir : String) :
    (strContains target "windows" = true →
      Directive.linkLib "winmm" ∈ link_directives target out_dir ∧
      Directive.linkLib "psapi" ∈ link_directives target out_dir ∧
      (strContains target "gnu" = true →
        Directive.linkLib "stdc++" ∈ link_directives target out_dir) ∧
      (strContains target "gnu" = false →
        Directive.linkLib "stdc++" ∉ link_directives target out_dir ∧
        Directive.linkLib "c++" ∉ link_directives target out_dir)) ∧
    (strContains target "windows" = false →
      Directive.linkLib "winmm" ∉ link_directives target out_dir ∧
      Directive.linkLib "psapi" ∉ link_directives target out_dir ∧
      ((strContains target "apple" = true ∨ strContains target "freebsd" = true) →
        Directive.linkLib "c++" ∈ link_directives target out_dir ∧
        Directive.linkLib "stdc++" ∉ link_directives target out_dir) ∧
      (strContains target "apple" = false → strContains target "freebsd" = false →
        Directive.linkLib "stdc++" ∈ link_directives target out_dir ∧
        Directive.linkLib "c++" ∉ link_directives target out_dir)) := by
  cases hw : strContains target "windows" <;>
    cases hg : strContains target "gnu" <;>
      cases ha : strContains target "apple" <;>
        cases hf : strContains target "freebsd" <;>
          simp [link_directives, hw, hg, ha, hf]

/-- C2 witness: the spec's two named triples behave as the claim's
particulars say. -/
theorem link_directives_platform_selection_case :
    Directive.linkLib "winmm" ∈ link_directives "x86_64-pc-windows-gnu" "out" ∧
    Directive.linkLib "stdc++" ∈ link_directives "x86_64-pc-windows-gnu" "out" ∧
    Directive.linkLib "c++" ∈ link_directives "x86_64-apple-darwin" "out" ∧
    Directive.linkLib "winmm" ∉ link_directives "x86_64-apple-darwin" "out" :=
  ⟨((link_directives_platform_selection "x86_64-pc-windows-gnu" "out").1
      (by decide)).1,
   (((link_directives_platform_selection "x86_64-pc-windows-gnu" "out").1
      (by decide)).2.2.1 (by decide)),
   ((((link_directives_platform_selection "x86_64-apple-darwin" "out").2
      (by decide)).2.2.1 (Or.inl (by decide))).1),
   (((link_directives_platform_selection "x86_64-apple-darwin" "out").2
      (by decide)).1)⟩

/-! ## Helper lemmas about the structured-clone wrapper -/

/-- No wrapper operation reassigns the `raw` field: the method bodies only
dereference it. -/
theorem applyOp_fst (op : SCOp) (b : StructuredCloneBuffer) (h : NativeHeap) :
    (applyOp op b h).1 = b := by
  cases op with
  | getData => rfl
  | copyToVec => rfl
  | read nativeOk => rfl
  | write v nativeOk => cases nativeOk <;> rfl
  | writeBytes bytes => rfl

/-- No wrapper operation calls `DeleteJSAutoStructuredCloneBuffer`: the
delete log is untouched. -/
theorem applyOp_deletes (op : SCOp) (b : StructuredCloneBuffer) (h : NativeHeap) :
    ((applyOp op b h).2).deletes = h.deletes := by
  cases op with
  | getData => rfl
  | copyToVec => rfl
  | read nativeOk => rfl
  | write v nativeOk => cases nativeOk <;> rfl
  | writeBytes bytes => rfl

theorem runOps_fst (ops : List SCOp) (b : StructuredCloneBuffer)
    (h : NativeHeap) : (runOps ops b h).1 = b := by
  induction ops generalizing b h with
  | nil => rfl
  | cons op rest ih =>
      rw [runOps, applyOp_fst]
      exact ih b (applyOp op b h).2

theorem runOps_deletes (ops : List SCOp) (b : StructuredCloneBuffer)
    (h : NativeHeap) : ((runOps ops b h).2).deletes = h.deletes := by
  induction ops generalizing b h with
  | nil => rfl
  | cons op rest ih =>
      rw [runOps, ih, applyOp_deletes]

/-- What a successful `new` (native allocation did not fail) produces:
a wrapper around the fresh non-null address, and a heap extended with the
new empty buffer. -/
theorem new_ok_inv (scope : StructuredCloneScope)
    (callbacks : JSStructuredCloneCallbacks) (h0 : NativeHeap)
    (b : StructuredCloneBuffer) (h1 : NativeHeap)
    (hnew : StructuredCloneBuffer.new scope callbacks false h0 =
      Except.ok (b, h1)) :
    b.raw = h0.nextPtr + 1 ∧
    h1 = { h0 with nextPtr := h0.nextPtr + 1,
                   bufs := (h0.nextPtr + 1, []) :: h0.bufs } := by
  simp [StructuredCloneBuffer.new, NewJSAutoStructuredCloneBuffer] at hnew
  obtain ⟨hb, hh⟩ := hnew
  constructor
  · rw [← hb]
  · rw [← hh]

/-! ## Claims about `sc.rs` -/

/-- C3: between construction and drop no wrapper operation releases the
native buffer (the delete log never mentions the owned address), the drop
at the end releases it exactly once, and — `ops = []` — a buffer
constructed and immediately dropped releases it exactly once. -/
theorem drop_releases_exactly_once (ops : List SCOp)
    (scope : StructuredCloneScope) (callbacks : JSStructuredCloneCallbacks)
    (h0 : NativeHeap) (b : StructuredCloneBuffer) (h1 : NativeHeap)
    (hnew : StructuredCloneBuffer.new scope callbacks false h0 =
      Except.ok (b, h1))
    (hfresh : h0.deletes.count b.raw = 0) :
    ((runOps ops b h1).2).deletes.count b.raw = 0 ∧
    (StructuredCloneBuffer.drop (runOps ops b h1).1
        ((runOps ops b h1).2)).deletes.count b.raw = 1 := by
  obtain ⟨hraw, hh1⟩ := new_ok_inv scope callbacks h0 b h1 hnew
  have hd1 : h1.deletes = h0.deletes := by rw [hh1]
  constructor
  · rw [runOps_deletes, hd1]
    exact hfresh
  · rw [StructuredCloneBuffer.drop, DeleteJSAutoStructuredCloneBuffer]
    simp [runOps_fst, runOps_deletes, hd1, List.count_append, hfresh]

/-- C3 witness: construct on an empty heap, run a `write_bytes`, drop. -/
theorem drop_releases_exactly_once_case :
    ((runOps [SCOp.writeBytes [42]] ⟨1⟩ ⟨1, [(1, [])], []⟩).2).deletes.count
        (StructuredCloneBuffer.mk 1).raw = 0 ∧
    (StructuredCloneBuffer.drop
        (runOps [SCOp.writeBytes [42]] ⟨1⟩ ⟨1, [(1, [])], []⟩).1
        ((runOps [SCOp.writeBytes [42]] ⟨1⟩ ⟨1, [(1, [])], []⟩).2)).deletes.count
        (StructuredCloneBuffer.mk 1).raw = 1 :=
  drop_releases_exactly_once [SCOp.writeBytes [42]]
    StructuredCloneScope.SameProcessSameThread ⟨0⟩ ⟨0, [], []⟩ ⟨1⟩
    ⟨1, [(1, [])], []⟩ rfl rfl

/-- C4: `new` panics — an `Except.error`, not a recoverable value — when
the native allocation returns null, and otherwise returns a wrapper owning
the non-null freshly allocated buffer. -/
theorem new_null_is_fatal (scope : StructuredCloneScope)
    (callbacks : JSStructuredCloneCallbacks) (h : NativeHeap) :
    (∃ msg, StructuredCloneBuffer.new scope callbacks true h =
      Except.error msg) ∧
    (∃ b h', StructuredCloneBuffer.new scope callbacks false h =
        Except.ok (b, h') ∧
      b.raw ≠ 0 ∧ (h'.bufs.find? (fun e => e.1 == b.raw)).isSome = true) := by
  constructor
  · exact ⟨_, rfl⟩
  · refine ⟨⟨h.nextPtr + 1⟩,
      { h with nextPtr := h.nextPtr + 1,
               bufs := (h.nextPtr + 1, []) :: h.bufs },
      ?_, Nat.succ_ne_zero _, ?_⟩
    · simp [StructuredCloneBuffer.new, NewJSAutoStructuredCloneBuffer]
    · simp [List.find?]

/-- C10: a wrapper obtained from a successful `new` holds a non-null raw
pointer, and no sequence of wrapper operations changes the wrapper — in
particular the `raw` field is never reassigned. -/
theorem raw_nonnull_and_stable (ops : List SCOp)
    (scope : StructuredCloneScope) (callbacks : JSStructuredCloneCallbacks)
    (h0 : NativeHeap) (b : StructuredCloneBuffer) (h1 : NativeHeap)
    (hnew : StructuredCloneBuffer.new scope callbacks false h0 =
      Except.ok (b, h1)) :
    b.raw ≠ 0 ∧ (runOps ops b h1).1 = b := by
  obtain ⟨hraw, -⟩ := new_ok_inv scope callbacks h0 b h1 hnew
  constructor
  · rw [hraw]
    exact Nat.succ_ne_zero _
  · exact runOps_fst ops b h1

/-- C10 witness: a `data` access, a `copy_to_vec` and a `read` leave the
wrapper untouched. -/
theorem raw_nonnull_and_stable_case :
    (StructuredCloneBuffer.mk 1).raw ≠ 0 ∧
    (runOps [SCOp.getData, SCOp.copyToVec, SCOp.read true] ⟨1⟩
      ⟨1, [(1, [])], []⟩).1 = ⟨1⟩ :=
  raw_nonnull_and_stable [SCOp.getData, SCOp.copyToVec, SCOp.read true]
    StructuredCloneScope.SameProcessDifferentThread ⟨0⟩ ⟨0, [], []⟩ ⟨1⟩
    ⟨1, [(1, [])], []⟩ rfl

/-- C1: the code bug, evaluated. After writing one byte, the length query
reports 1 and `copy_to_vec` allocates capacity 1 and copies the byte into
the vector's memory — but, `set_len` never being called, the returned
vector's observable byte sequence is empty, not of length 1 as the claim
requires. -/
theorem copy_to_vec_drops_length :
    GetLengthOfJSStructuredCloneData
      (runOps [SCOp.writeBytes [42]] ⟨1⟩ ⟨1, [(1, [])], []⟩).2
      (StructuredCloneBuffer.mk 1).data = 1 ∧
    ((StructuredCloneBuffer.mk 1).copy_to_vec
      (runOps [SCOp.writeBytes [42]] ⟨1⟩ ⟨1, [(1, [])], []⟩).2).cap = 1 ∧
    ((StructuredCloneBuffer.mk 1).copy_to_vec
      (runOps [SCOp.writeBytes [42]] ⟨1⟩ ⟨1, [(1, [])], []⟩).2).backing = [42] ∧
    ((StructuredCloneBuffer.mk 1).copy_to_vec
      (runOps [SCOp.writeBytes [42]] ⟨1⟩ ⟨1, [(1, [])], []⟩).2).bytes.length = 0 := by
  decide

end Mozjs
